import Mathlib

/-!
Shallow embedding of `cdvae/pl_data/datamodule.py`.

The file defines `worker_init_fn` and the class `CrystDataModule`
(a `pytorch_lightning.LightningDataModule`).  The module delegates to
external frameworks:
  * `hydra.utils.instantiate` builds a dataset object from a config node;
  * `torch.load` deserializes a tensor file;
  * `get_scaler_from_data_list` (from `cdvae.common.data_utils`) computes a
    scaler from a dataset's cached data under a string key;
  * `np.random.SeedSequence(...).generate_state(4)` expands a seed.
These are library code outside the embedded file, so they enter the model
as abstract (but deterministic) function parameters, fallible where the
claims concern exceptions (`Except Err`).  Every external call an operation
performs is also recorded in an explicit effect trace, so that laziness and
"loaded once" properties are statable.  Python attribute mutation is
modelled by functional record update, and "same object by reference" by
equality of the stored values.
-/

namespace CdvaeDM

/-- A dataset object as `CrystDataModule` sees it: it exposes `cached_data`
and `prop` (a list of property keys), and carries the two attributes that
`setup` assigns (`lattice_scaler`, `prop_scalers`), unset (`none`) until
assigned. -/
structure Dataset (CD Sc : Type) where
  cached_data : CD
  prop : List String
  lattice_scaler : Option Sc := none
  prop_scalers : Option (List Sc) := none
deriving DecidableEq

/-- The `datasets` config node: one train config, a list of val configs and
a list of test configs. -/
structure DatasetsCfg (Cfg : Type) where
  train : Cfg
  val : List Cfg
  test : List Cfg
deriving DecidableEq

/-- A per-split triple, as in the `num_workers` and `batch_size` config
nodes. -/
structure SplitValues (α : Type) where
  train : α
  val : α
  test : α
deriving DecidableEq

/-- The external framework calls the datamodule makes, as abstract
deterministic functions.  `instantiate` and the two `torch.load` uses are
fallible, matching the claims about propagated exceptions.  `torch.load`
is one dynamically-typed Python function; it appears here once per result
type it is used at. -/
structure Env (Cfg CD Sc Err : Type) where
  instantiate : Cfg → Except Err (Dataset CD Sc)
  get_scaler_from_data_list : CD → String → Sc
  torch_load_scaler : String → Except Err Sc
  torch_load_scaler_list : String → Except Err (List Sc)

/-- Python path concatenation `Path(p) / f`. -/
def pathJoin (p f : String) : String := p ++ "/" ++ f

/-- One entry of the effect trace: a call of `get_scaler` itself, a dataset
instantiation from a config node, or a `torch.load` of a path. -/
inductive Effect (Cfg : Type) where
  | getScalerCall : Effect Cfg
  | instantiateDataset : Cfg → Effect Cfg
  | torchLoad : String → Effect Cfg
deriving DecidableEq

/-- Is this effect a dataset instantiation? -/
def isInstantiateEffect {Cfg : Type} : Effect Cfg → Bool
  | .instantiateDataset _ => true
  | _ => false

/-- Is this effect a `get_scaler` call marker? -/
def isGetScalerCall {Cfg : Type} : Effect Cfg → Bool
  | .getScalerCall => true
  | _ => false

/-- The random state `worker_init_fn` establishes in a worker: the words
passed to `np.random.seed` and the value passed to `random.seed`. -/
structure WorkerSeedState where
  np_seed_words : List Nat
  py_seed : Nat
deriving DecidableEq

/-- Ambient parameter of `worker_init_fn`: the library function
`np.random.SeedSequence(entropy).generate_state(n)`, as a deterministic
function from the entropy list and the word count to the state words. -/
abbrev SeedSeqGen : Type := List Nat → Nat → List Nat

set_option linter.unusedVariables false in
/-- Model of `worker_init_fn(id)`.  Reads `torch.initial_seed()` (ambient, passed
explicitly), builds `np.random.SeedSequence([uint64_seed])`, seeds numpy
with `ss.generate_state(4)` and the stdlib `random` with `uint64_seed`.
The `id` argument is bound but never read, exactly as in the source. -/
def worker_init_fn (gs : SeedSeqGen) (torch_initial_seed : Nat) (id : Nat) :
    WorkerSeedState :=
  let uint64_seed := torch_initial_seed
  { np_seed_words := gs [uint64_seed] 4
    py_seed := uint64_seed }

/-- The `CrystDataModule` object state after a successful `__init__`:
stored config nodes, the unpacked batch sizes, the three optional dataset
handles, and the two scaler fields that `get_scaler` assigns. -/
structure CrystDataModule (Cfg CD Sc : Type) where
  datasets : DatasetsCfg Cfg
  num_workers : SplitValues Nat
  batch_size : SplitValues Nat
  train_batch_size : Nat
  val_batch_size : Nat
  test_batch_size : Nat
  scaler_path : Option String
  train_dataset : Option (Dataset CD Sc)
  val_datasets : Option (List (Dataset CD Sc))
  test_datasets : Option (List (Dataset CD Sc))
  lattice_scaler : Sc
  prop_scalers : List Sc

variable {Cfg CD Sc Err : Type}

/-- Model of `CrystDataModule.get_scaler(scaler_path)`: with no path, instantiate
the train dataset and compute the lattice scaler (key `'scaled_lattice'`)
and one property scaler per entry of the dataset's `prop` list from its
cached data; with a path, `torch.load` the two scaler files under it.
Returns the effect trace and either the raised exception or the pair
`(lattice_scaler, prop_scalers)` the method assigns. -/
def get_scaler (env : Env Cfg CD Sc Err) (datasets : DatasetsCfg Cfg)
    (scaler_path : Option String) :
    List (Effect Cfg) × Except Err (Sc × List Sc) :=
  match scaler_path with
  | none =>
    match env.instantiate datasets.train with
    | .error e =>
      ([.getScalerCall, .instantiateDataset datasets.train], .error e)
    | .ok train_dataset =>
      ([.getScalerCall, .instantiateDataset datasets.train],
       .ok (env.get_scaler_from_data_list train_dataset.cached_data
              "scaled_lattice",
            train_dataset.prop.map fun p =>
              env.get_scaler_from_data_list train_dataset.cached_data p))
  | some sp =>
    match env.torch_load_scaler (pathJoin sp "lattice_scaler.pt") with
    | .error e =>
      ([.getScalerCall, .torchLoad (pathJoin sp "lattice_scaler.pt")],
       .error e)
    | .ok ls =>
      match env.torch_load_scaler_list (pathJoin sp "prop_scalers.pt") with
      | .error e =>
        ([.getScalerCall, .torchLoad (pathJoin sp "lattice_scaler.pt"),
          .torchLoad (pathJoin sp "prop_scalers.pt")], .error e)
      | .ok ps =>
        ([.getScalerCall, .torchLoad (pathJoin sp "lattice_scaler.pt"),
          .torchLoad (pathJoin sp "prop_scalers.pt")], .ok (ls, ps))

/-- Model of `CrystDataModule.__init__`: store the config nodes, unpack the batch
sizes, set the three dataset handles to `None`, then call
`get_scaler(scaler_path)`.  An exception from `get_scaler` aborts
construction. -/
def initModule (env : Env Cfg CD Sc Err) (datasets : DatasetsCfg Cfg)
    (num_workers batch_size : SplitValues Nat) (scaler_path : Option String) :
    List (Effect Cfg) × Except Err (CrystDataModule Cfg CD Sc) :=
  match get_scaler env datasets scaler_path with
  | (effs, .error e) => (effs, .error e)
  | (effs, .ok (ls, ps)) =>
    (effs,
     .ok { datasets := datasets
           num_workers := num_workers
           batch_size := batch_size
           train_batch_size := batch_size.train
           val_batch_size := batch_size.val
           test_batch_size := batch_size.test
           scaler_path := scaler_path
           train_dataset := none
           val_datasets := none
           test_datasets := none
           lattice_scaler := ls
           prop_scalers := ps })

/-- Assignment of the module's scalers onto one dataset object, as done by
`setup` (`dataset.lattice_scaler = self.lattice_scaler`;
`dataset.prop_scalers = self.prop_scalers`). -/
def assignScalers (ls : Sc) (ps : List Sc) (d : Dataset CD Sc) :
    Dataset CD Sc :=
  { d with lattice_scaler := some ls, prop_scalers := some ps }

/-- A Python list comprehension
`[hydra.utils.instantiate(cfg) for cfg in cfgs]`: instantiate each config
in order, recording each call, stopping at the first exception. -/
def instantiateList (env : Env Cfg CD Sc Err) :
    List Cfg → List (Effect Cfg) × Except Err (List (Dataset CD Sc))
  | [] => ([], .ok [])
  | c :: rest =>
    match env.instantiate c with
    | .error e => ([.instantiateDataset c], .error e)
    | .ok d =>
      match instantiateList env rest with
      | (effs, .error e) => (.instantiateDataset c :: effs, .error e)
      | (effs, .ok ds) => (.instantiateDataset c :: effs, .ok (d :: ds))

/-- The condition `stage is None or stage == "fit"`. -/
def fitStage (stage : Option String) : Bool :=
  stage == none || stage == some "fit"

/-- The condition `stage is None or stage == "test"`. -/
def testStage (stage : Option String) : Bool :=
  stage == none || stage == some "test"

/-- The fit branch of `setup`: instantiate the train dataset only if the
handle is still `None`, instantiate every val config, then assign the
module's scalers onto the train dataset and every val dataset. -/
def setupFit (env : Env Cfg CD Sc Err) (m : CrystDataModule Cfg CD Sc) :
    List (Effect Cfg) × Except Err (CrystDataModule Cfg CD Sc) :=
  match m.train_dataset with
  | none =>
    match env.instantiate m.datasets.train with
    | .error e => ([.instantiateDataset m.datasets.train], .error e)
    | .ok td =>
      match instantiateList env m.datasets.val with
      | (effs, .error e) =>
        (.instantiateDataset m.datasets.train :: effs, .error e)
      | (effs, .ok vds) =>
        (.instantiateDataset m.datasets.train :: effs,
         .ok { m with
               train_dataset :=
                 some (assignScalers m.lattice_scaler m.prop_scalers td)
               val_datasets :=
                 some (vds.map (assignScalers m.lattice_scaler
                   m.prop_scalers)) })
  | some td =>
    match instantiateList env m.datasets.val with
    | (effs, .error e) => (effs, .error e)
    | (effs, .ok vds) =>
      (effs,
       .ok { m with
             train_dataset :=
               some (assignScalers m.lattice_scaler m.prop_scalers td)
             val_datasets :=
               some (vds.map (assignScalers m.lattice_scaler
                 m.prop_scalers)) })

/-- The test branch of `setup`: instantiate every test config and assign
the module's scalers onto each test dataset. -/
def setupTest (env : Env Cfg CD Sc Err) (m : CrystDataModule Cfg CD Sc) :
    List (Effect Cfg) × Except Err (CrystDataModule Cfg CD Sc) :=
  match instantiateList env m.datasets.test with
  | (effs, .error e) => (effs, .error e)
  | (effs, .ok tds) =>
    (effs,
     .ok { m with
           test_datasets :=
             some (tds.map (assignScalers m.lattice_scaler
               m.prop_scalers)) })

/-- Model of `CrystDataModule.setup(stage)`: run the fit branch when `stage` is
`None` or `"fit"`, then the test branch when `stage` is `None` or
`"test"`; an exception aborts the call. -/
def setup (env : Env Cfg CD Sc Err) (stage : Option String)
    (m : CrystDataModule Cfg CD Sc) :
    List (Effect Cfg) × Except Err (CrystDataModule Cfg CD Sc) :=
  if fitStage stage then
    match setupFit env m with
    | (effs, .error e) => (effs, .error e)
    | (effs, .ok m1) =>
      if testStage stage then
        match setupTest env m1 with
        | (effs2, r) => (effs ++ effs2, r)
      else (effs, .ok m1)
  else
    if testStage stage then setupTest env m
    else ([], .ok m)

/-- A constructed `torch_geometric.loader.DataLoader`, recorded as the
arguments the datamodule passes to its constructor. -/
structure DataLoader (Cfg CD Sc : Type) where
  dataset : Option (Dataset CD Sc)
  shuffle : Bool
  batch_size : Nat
  num_workers : Nat
  worker_init : SeedSeqGen → Nat → Nat → WorkerSeedState

/-- Model of `CrystDataModule.train_dataloader()`: one loader over the train
handle, shuffled, with the train batch size, the train worker count and
`worker_init_fn`. -/
def train_dataloader (m : CrystDataModule Cfg CD Sc) :
    DataLoader Cfg CD Sc :=
  { dataset := m.train_dataset
    shuffle := true
    batch_size := m.train_batch_size
    num_workers := m.num_workers.train
    worker_init := worker_init_fn }

/-- Model of `CrystDataModule.val_dataloader()`: one unshuffled loader per val
dataset.  Iterating a `None` handle raises in Python; the model returns
`none` there. -/
def val_dataloader (m : CrystDataModule Cfg CD Sc) :
    Option (List (DataLoader Cfg CD Sc)) :=
  m.val_datasets.map fun ds =>
    ds.map fun d =>
      { dataset := some d
        shuffle := false
        batch_size := m.val_batch_size
        num_workers := m.num_workers.val
        worker_init := worker_init_fn }

/-- Model of `CrystDataModule.test_dataloader()`: one unshuffled loader per test
dataset.  Iterating a `None` handle raises in Python; the model returns
`none` there. -/
def test_dataloader (m : CrystDataModule Cfg CD Sc) :
    Option (List (DataLoader Cfg CD Sc)) :=
  m.test_datasets.map fun ds =>
    ds.map fun d =>
      { dataset := some d
        shuffle := false
        batch_size := m.test_batch_size
        num_workers := m.num_workers.test
        worker_init := worker_init_fn }

/-! ### Supporting lemmas (inversion and frame properties) -/

theorem instantiateList_error (env : Env Cfg CD Sc Err) :
    ∀ (cfgs : List Cfg) (effs : List (Effect Cfg)) (e : Err),
      instantiateList env cfgs = (effs, .error e) →
      ∃ c, env.instantiate c = .error e := by
  intro cfgs
  induction cfgs with
  | nil => intro effs e h; simp [instantiateList] at h
  | cons c rest ih =>
    intro effs e h
    unfold instantiateList at h
    cases hc : env.instantiate c with
    | error e' =>
      rw [hc] at h
      simp only [Prod.mk.injEq, Except.error.injEq] at h
      exact ⟨c, by rw [hc, h.2]⟩
    | ok d =>
      rw [hc] at h
      cases hr : instantiateList env rest with
      | mk effs' r =>
        rw [hr] at h
        cases r with
        | error e' =>
          simp only [Prod.mk.injEq, Except.error.injEq] at h
          exact ih effs' e (by rw [hr, h.2])
        | ok ds => simp at h

theorem instantiateList_no_scaler_call (env : Env Cfg CD Sc Err) :
    ∀ cfgs : List Cfg,
      ((instantiateList env cfgs).1).countP isGetScalerCall = 0 := by
  intro cfgs
  induction cfgs with
  | nil => simp [instantiateList]
  | cons c rest ih =>
    unfold instantiateList
    cases hc : env.instantiate c with
    | error e => simp [List.countP_cons, List.countP_nil, isGetScalerCall]
    | ok d =>
      cases hr : instantiateList env rest with
      | mk effs r =>
        rw [hr] at ih
        cases r <;>
          simp_all [List.countP_cons, isGetScalerCall]

theorem setupFit_ok (env : Env Cfg CD Sc Err) (m : CrystDataModule Cfg CD Sc)
    (effs : List (Effect Cfg)) (m' : CrystDataModule Cfg CD Sc)
    (h : setupFit env m = (effs, .ok m')) :
    ∃ td vds,
      (instantiateList env m.datasets.val).2 = .ok vds ∧
      m' = { m with
             train_dataset :=
               some (assignScalers m.lattice_scaler m.prop_scalers td)
             val_datasets :=
               some (vds.map (assignScalers m.lattice_scaler
                 m.prop_scalers)) } ∧
      (∀ d, m.train_dataset = some d → td = d) ∧
      (m.train_dataset = none → env.instantiate m.datasets.train = .ok td) := by
  unfold setupFit at h
  split at h
  next htd =>
    split at h
    next => simp at h
    next td hc =>
      split at h
      next => simp at h
      next effsV vds hil =>
        simp only [Prod.mk.injEq, Except.ok.injEq] at h
        refine ⟨td, vds, by rw [hil], h.2.symm, ?_, fun _ => hc⟩
        intro d hd
        rw [htd] at hd
        exact absurd hd (by simp)
  next td htd =>
    split at h
    next => simp at h
    next effsV vds hil =>
      simp only [Prod.mk.injEq, Except.ok.injEq] at h
      refine ⟨td, vds, by rw [hil], h.2.symm, ?_, ?_⟩
      · intro d hd
        rw [htd] at hd
        exact Option.some.injEq _ _ ▸ hd
      · intro hn
        rw [htd] at hn
        exact absurd hn (by simp)

theorem setupTest_ok (env : Env Cfg CD Sc Err) (m : CrystDataModule Cfg CD Sc)
    (effs : List (Effect Cfg)) (m' : CrystDataModule Cfg CD Sc)
    (h : setupTest env m = (effs, .ok m')) :
    ∃ tds,
      (instantiateList env m.datasets.test).2 = .ok tds ∧
      m' = { m with
             test_datasets :=
               some (tds.map (assignScalers m.lattice_scaler
                 m.prop_scalers)) } := by
  unfold setupTest at h
  split at h
  next => simp at h
  next effsT tds hil =>
    simp only [Prod.mk.injEq, Except.ok.injEq] at h
    exact ⟨tds, by rw [hil], h.2.symm⟩

theorem setupFit_error (env : Env Cfg CD Sc Err) (m : CrystDataModule Cfg CD Sc)
    (effs : List (Effect Cfg)) (e : Err)
    (h : setupFit env m = (effs, .error e)) :
    ∃ c, env.instantiate c = .error e := by
  unfold setupFit at h
  split at h
  next htd =>
    split at h
    next e' hc =>
      simp only [Prod.mk.injEq, Except.error.injEq] at h
      exact ⟨m.datasets.train, by rw [hc, h.2]⟩
    next td hc =>
      split at h
      next effsV e' hil =>
        simp only [Prod.mk.injEq, Except.error.injEq] at h
        exact instantiateList_error env m.datasets.val effsV e (by rw [hil, h.2])
      next => simp at h
  next td htd =>
    split at h
    next effsV e' hil =>
      simp only [Prod.mk.injEq, Except.error.injEq] at h
      exact instantiateList_error env m.datasets.val effsV e (by rw [hil, h.2])
    next => simp at h

theorem setupTest_error (env : Env Cfg CD Sc Err) (m : CrystDataModule Cfg CD Sc)
    (effs : List (Effect Cfg)) (e : Err)
    (h : setupTest env m = (effs, .error e)) :
    ∃ c, env.instantiate c = .error e := by
  unfold setupTest at h
  split at h
  next effsT e' hil =>
    simp only [Prod.mk.injEq, Except.error.injEq] at h
    exact instantiateList_error env m.datasets.test effsT e (by rw [hil, h.2])
  next => simp at h

theorem setupFit_no_scaler_call (env : Env Cfg CD Sc Err)
    (m : CrystDataModule Cfg CD Sc) :
    ((setupFit env m).1).countP isGetScalerCall = 0 := by
  unfold setupFit
  split
  · split
    · simp [List.countP_cons, List.countP_nil, isGetScalerCall]
    · split
      next effsV e hil =>
        have := instantiateList_no_scaler_call env m.datasets.val
        rw [hil] at this
        simp [List.countP_cons, isGetScalerCall, this]
      next effsV vds hil =>
        have := instantiateList_no_scaler_call env m.datasets.val
        rw [hil] at this
        simp [List.countP_cons, isGetScalerCall, this]
  · split
    next effsV e hil =>
      have := instantiateList_no_scaler_call env m.datasets.val
      rw [hil] at this
      simpa using this
    next effsV vds hil =>
      have := instantiateList_no_scaler_call env m.datasets.val
      rw [hil] at this
      simpa using this

theorem setupTest_no_scaler_call (env : Env Cfg CD Sc Err)
    (m : CrystDataModule Cfg CD Sc) :
    ((setupTest env m).1).countP isGetScalerCall = 0 := by
  unfold setupTest
  split
  next effsT e hil =>
    have := instantiateList_no_scaler_call env m.datasets.test
    rw [hil] at this
    simpa using this
  next effsT tds hil =>
    have := instantiateList_no_scaler_call env m.datasets.test
    rw [hil] at this
    simpa using this

theorem setup_ok_inv (env : Env Cfg CD Sc Err) (stage : Option String)
    (m : CrystDataModule Cfg CD Sc) (effs : List (Effect Cfg))
    (m' : CrystDataModule Cfg CD Sc)
    (h : setup env stage m = (effs, .ok m')) :
    (fitStage stage = true ∧ testStage stage = true ∧
       ∃ m1 e1 e2, setupFit env m = (e1, .ok m1) ∧
         setupTest env m1 = (e2, .ok m') ∧ effs = e1 ++ e2) ∨
    (fitStage stage = true ∧ testStage stage = false ∧
       setupFit env m = (effs, .ok m')) ∨
    (fitStage stage = false ∧ testStage stage = true ∧
       setupTest env m = (effs, .ok m')) ∨
    (fitStage stage = false ∧ testStage stage = false ∧
       effs = [] ∧ m' = m) := by
  unfold setup at h
  split at h
  next hf =>
    split at h
    next e1 e hsf => simp at h
    next e1 m1 hsf =>
      split at h
      next ht =>
        split at h
        next e2 r hst =>
          cases r with
          | error e => simp at h
          | ok m2 =>
            simp only [Prod.mk.injEq, Except.ok.injEq] at h
            exact Or.inl ⟨hf, ht, m1, e1, e2, hsf, by rw [hst, h.2], h.1.symm⟩
      next ht =>
        simp only [Prod.mk.injEq, Except.ok.injEq] at h
        exact Or.inr (Or.inl ⟨hf, by simpa using ht,
          by rw [hsf, h.1, h.2]⟩)
  next hf =>
    split at h
    next ht =>
      exact Or.inr (Or.inr (Or.inl ⟨by simpa using hf, ht, h⟩))
    next ht =>
      simp only [Prod.mk.injEq, Except.ok.injEq] at h
      exact Or.inr (Or.inr (Or.inr ⟨by simpa using hf, by simpa using ht,
        h.1.symm, h.2.symm⟩))

theorem initModule_ok_inv (env : Env Cfg CD Sc Err) (dcfg : DatasetsCfg Cfg)
    (nw bs : SplitValues Nat) (sp : Option String) (effs : List (Effect Cfg))
    (m0 : CrystDataModule Cfg CD Sc)
    (h : initModule env dcfg nw bs sp = (effs, .ok m0)) :
    m0.datasets = dcfg ∧ m0.num_workers = nw ∧ m0.batch_size = bs ∧
    m0.train_batch_size = bs.train ∧ m0.val_batch_size = bs.val ∧
    m0.test_batch_size = bs.test ∧ m0.scaler_path = sp ∧
    m0.train_dataset = none ∧ m0.val_datasets = none ∧
    m0.test_datasets = none ∧
    (get_scaler env dcfg sp).2 = .ok (m0.lattice_scaler, m0.prop_scalers) ∧
    effs = (get_scaler env dcfg sp).1 := by
  unfold initModule at h
  split at h
  next => simp at h
  next effs' ls ps hgs =>
    simp only [Prod.mk.injEq, Except.ok.injEq] at h
    obtain ⟨h1, h2⟩ := h
    subst h2
    simp_all

/-! ### Concrete instantiation used by witnesses and counterexamples -/

/-- A concrete environment: configs, cached data, scalers and errors are
natural numbers; every dataset exposes two property keys and carries its
config number as cached data. -/
def envW : Env Nat Nat Nat Nat where
  instantiate := fun c => .ok { cached_data := c, prop := ["energy", "gap"] }
  get_scaler_from_data_list := fun cd key => 100 * cd + key.length
  torch_load_scaler := fun p => .ok p.length
  torch_load_scaler_list := fun p => .ok [p.length, p.length + 1]

/-- An environment whose every fallible call fails. -/
def envE : Env Nat Nat Nat Nat where
  instantiate := fun _ => .error 42
  get_scaler_from_data_list := fun cd _ => cd
  torch_load_scaler := fun _ => .error 43
  torch_load_scaler_list := fun _ => .error 44

/-- A concrete `datasets` config node. -/
def dcfgW : DatasetsCfg Nat := { train := 7, val := [1, 2], test := [3] }

/-- Concrete worker counts. -/
def nwW : SplitValues Nat := { train := 4, val := 2, test := 1 }

/-- Concrete batch sizes. -/
def bsW : SplitValues Nat := { train := 32, val := 16, test := 8 }

/-- The dataset `envW` builds from the train config of `dcfgW`. -/
def tdW : Dataset Nat Nat := { cached_data := 7, prop := ["energy", "gap"] }

/-- A small dataset object. -/
def dW : Dataset Nat Nat := { cached_data := 3, prop := ["energy"] }

/-- A module state with all three dataset handles populated. -/
def mVT : CrystDataModule Nat Nat Nat :=
  { datasets := dcfgW
    num_workers := nwW
    batch_size := bsW
    train_batch_size := 32
    val_batch_size := 16
    test_batch_size := 8
    scaler_path := none
    train_dataset := some dW
    val_datasets := some [dW]
    test_datasets := some [dW]
    lattice_scaler := 714
    prop_scalers := [706, 703] }

/-- The loader `val_dataloader` builds over `dW` from `mVT`. -/
def valLoaderW : DataLoader Nat Nat Nat :=
  { dataset := some dW
    shuffle := false
    batch_size := 16
    num_workers := 2
    worker_init := worker_init_fn }

/-- A concrete seed-sequence expansion function. -/
def gsW : SeedSeqGen := fun entropy n => entropy ++ [n]

/-- The module state `initModule envW dcfgW nwW bsW none` produces. -/
def mW0 : CrystDataModule Nat Nat Nat :=
  { datasets := dcfgW
    num_workers := nwW
    batch_size := bsW
    train_batch_size := 32
    val_batch_size := 16
    test_batch_size := 8
    scaler_path := none
    train_dataset := none
    val_datasets := none
    test_datasets := none
    lattice_scaler := 714
    prop_scalers := [706, 703] }

/-- The train dataset after `setup envW none mW0`, scalers attached. -/
def tdWs : Dataset Nat Nat :=
  { cached_data := 7
    prop := ["energy", "gap"]
    lattice_scaler := some 714
    prop_scalers := some [706, 703] }

/-- The first val dataset after `setup envW none mW0`. -/
def vdW1 : Dataset Nat Nat :=
  { cached_data := 1
    prop := ["energy", "gap"]
    lattice_scaler := some 714
    prop_scalers := some [706, 703] }

/-- The second val dataset after `setup envW none mW0`. -/
def vdW2 : Dataset Nat Nat :=
  { cached_data := 2
    prop := ["energy", "gap"]
    lattice_scaler := some 714
    prop_scalers := some [706, 703] }

/-- The test dataset after `setup envW none mW0`. -/
def tsW3 : Dataset Nat Nat :=
  { cached_data := 3
    prop := ["energy", "gap"]
    lattice_scaler := some 714
    prop_scalers := some [706, 703] }

/-- The module state `setup envW none mW0` produces. -/
def mW1 : CrystDataModule Nat Nat Nat :=
  { mW0 with
    train_dataset := some tdWs
    val_datasets := some [vdW1, vdW2]
    test_datasets := some [tsW3] }

/-- The effect trace of `initModule envW dcfgW nwW bsW none`. -/
def effsInitW : List (Effect Nat) :=
  [.getScalerCall, .instantiateDataset 7]

/-- The effect trace of `setup envW none mW0`. -/
def effsSetupW : List (Effect Nat) :=
  [.instantiateDataset 7, .instantiateDataset 1, .instantiateDataset 2,
   .instantiateDataset 3]

/-- The module state `initModule envW dcfgW nwW bsW (some "dir")`
produces. -/
def mWdir : CrystDataModule Nat Nat Nat :=
  { mW0 with
    scaler_path := some "dir"
    lattice_scaler := 21
    prop_scalers := [19, 20] }

/-- The effect trace of `initModule envW dcfgW nwW bsW (some "dir")`. -/
def effsInitDirW : List (Effect Nat) :=
  [.getScalerCall, .torchLoad "dir/lattice_scaler.pt",
   .torchLoad "dir/prop_scalers.pt"]

theorem setup_frame (env : Env Cfg CD Sc Err) (stage : Option String)
    (m : CrystDataModule Cfg CD Sc) (effs : List (Effect Cfg))
    (m' : CrystDataModule Cfg CD Sc)
    (h : setup env stage m = (effs, .ok m')) :
    m'.datasets = m.datasets ∧ m'.num_workers = m.num_workers ∧
    m'.batch_size = m.batch_size ∧
    m'.train_batch_size = m.train_batch_size ∧
    m'.val_batch_size = m.val_batch_size ∧
    m'.test_batch_size = m.test_batch_size ∧
    m'.scaler_path = m.scaler_path ∧
    m'.lattice_scaler = m.lattice_scaler ∧
    m'.prop_scalers = m.prop_scalers := by
  rcases setup_ok_inv env stage m effs m' h with
    ⟨-, -, m1, e1, e2, hsf, hst, -⟩ | ⟨-, -, hsf⟩ | ⟨-, -, hst⟩ | ⟨-, -, -, rfl⟩
  · obtain ⟨td, vds, -, rfl, -, -⟩ := setupFit_ok env m e1 m1 hsf
    obtain ⟨tds, -, rfl⟩ := setupTest_ok env _ e2 m' hst
    exact ⟨rfl, rfl, rfl, rfl, rfl, rfl, rfl, rfl, rfl⟩
  · obtain ⟨td, vds, -, rfl, -, -⟩ := setupFit_ok env m effs m' hsf
    exact ⟨rfl, rfl, rfl, rfl, rfl, rfl, rfl, rfl, rfl⟩
  · obtain ⟨tds, -, rfl⟩ := setupTest_ok env m effs m' hst
    exact ⟨rfl, rfl, rfl, rfl, rfl, rfl, rfl, rfl, rfl⟩
  · exact ⟨rfl, rfl, rfl, rfl, rfl, rfl, rfl, rfl, rfl⟩

/-! ### Claim theorems -/

/-- C1: `get_scaler` is a two-way branch on `scaler_path`.  With `None`
it instantiates the train dataset and computes the lattice scaler from the
cached data under key `'scaled_lattice'` and one property scaler per entry
of the dataset's `prop` list from the same cached data; with a path it
deserializes `lattice_scaler.pt` and `prop_scalers.pt` under that
directory and consults no dataset (its trace holds no instantiation). -/
theorem get_scaler_branch_spec (env : Env Cfg CD Sc Err)
    (dcfg : DatasetsCfg Cfg) :
    (∀ td, env.instantiate dcfg.train = .ok td →
      get_scaler env dcfg none =
        ([.getScalerCall, .instantiateDataset dcfg.train],
         .ok (env.get_scaler_from_data_list td.cached_data "scaled_lattice",
              td.prop.map fun p =>
                env.get_scaler_from_data_list td.cached_data p))) ∧
    (∀ sp ls ps,
      env.torch_load_scaler (pathJoin sp "lattice_scaler.pt") = .ok ls →
      env.torch_load_scaler_list (pathJoin sp "prop_scalers.pt") = .ok ps →
      get_scaler env dcfg (some sp) =
        ([.getScalerCall, .torchLoad (pathJoin sp "lattice_scaler.pt"),
          .torchLoad (pathJoin sp "prop_scalers.pt")], .ok (ls, ps))) ∧
    (∀ sp c, Effect.instantiateDataset c ∉ (get_scaler env dcfg (some sp)).1) := by
  refine ⟨?_, ?_, ?_⟩
  · intro td h
    simp [get_scaler, h]
  · intro sp ls ps h1 h2
    simp [get_scaler, h1, h2]
  · intro sp c
    unfold get_scaler
    cases h1 : env.torch_load_scaler (pathJoin sp "lattice_scaler.pt") with
    | error e => simp [h1]
    | ok ls =>
      cases h2 : env.torch_load_scaler_list (pathJoin sp "prop_scalers.pt") with
      | error e => simp [h1, h2]
      | ok ps => simp [h1, h2]

/-- Witness for C1 at the concrete environment: both branches of
`get_scaler`, with each hypothesis discharged by evaluation. -/
theorem get_scaler_branch_spec_witness :
    envW.instantiate dcfgW.train = .ok tdW ∧
    envW.torch_load_scaler (pathJoin "dir" "lattice_scaler.pt") = .ok 21 ∧
    envW.torch_load_scaler_list (pathJoin "dir" "prop_scalers.pt") =
      .ok [19, 20] ∧
    get_scaler envW dcfgW none =
      ([.getScalerCall, .instantiateDataset dcfgW.train],
       .ok (envW.get_scaler_from_data_list tdW.cached_data "scaled_lattice",
            tdW.prop.map fun p =>
              envW.get_scaler_from_data_list tdW.cached_data p)) ∧
    get_scaler envW dcfgW (some "dir") =
      ([.getScalerCall, .torchLoad (pathJoin "dir" "lattice_scaler.pt"),
        .torchLoad (pathJoin "dir" "prop_scalers.pt")], .ok (21, [19, 20])) :=
  ⟨rfl, rfl, rfl,
   (get_scaler_branch_spec envW dcfgW).1 tdW rfl,
   (get_scaler_branch_spec envW dcfgW).2.1 "dir" 21 [19, 20] rfl rfl⟩

/-- C6: `worker_init_fn` is a deterministic function of the ambient
seed-sequence expansion and of torch's initial seed alone.  Its numpy
seed words are the 4-word expansion of a seed sequence over the initial
seed, its stdlib seed is the initial seed itself, two runs with the same
initial seed set identical states, and the stdlib seeds of workers with
different initial seeds differ. -/
theorem worker_seed_reproducible (gs : SeedSeqGen) (s id1 id2 : Nat) :
    (worker_init_fn gs s id1).np_seed_words = gs [s] 4 ∧
    (worker_init_fn gs s id1).py_seed = s ∧
    (worker_init_fn gs s id1).np_seed_words =
      (worker_init_fn gs s id2).np_seed_words ∧
    (worker_init_fn gs s id1).py_seed = (worker_init_fn gs s id2).py_seed ∧
    (∀ s' id3, s ≠ s' →
      (worker_init_fn gs s id1).py_seed ≠
        (worker_init_fn gs s' id3).py_seed) := by
  refine ⟨rfl, rfl, rfl, rfl, ?_⟩
  intro s' id3 hne
  exact hne

/-- Witness for C6 at a concrete expansion function and concrete seeds. -/
theorem worker_seed_reproducible_witness :
    (5 : Nat) ≠ 6 ∧
    (worker_init_fn gsW 5 0).py_seed ≠ (worker_init_fn gsW 6 1).py_seed :=
  ⟨by decide, (worker_seed_reproducible gsW 5 0 1).2.2.2.2 6 1 (by decide)⟩

/-- C9: `worker_init_fn` never reads its `id` argument: with the ambient
expansion function and initial seed fixed, any two worker ids produce the
identical worker random state. -/
theorem worker_init_id_independent (gs : SeedSeqGen) (s id1 id2 : Nat) :
    worker_init_fn gs s id1 = worker_init_fn gs s id2 := rfl

/-- C10: only the training loader shuffles: `train_dataloader` sets
`shuffle=True`, and every loader returned by `val_dataloader` and
`test_dataloader` sets `shuffle=False`. -/
theorem only_train_shuffles (m : CrystDataModule Cfg CD Sc) :
    (train_dataloader m).shuffle = true ∧
    (∀ lds, val_dataloader m = some lds → ∀ l ∈ lds, l.shuffle = false) ∧
    (∀ lds, test_dataloader m = some lds → ∀ l ∈ lds, l.shuffle = false) := by
  refine ⟨rfl, ?_, ?_⟩
  · intro lds h l hl
    unfold val_dataloader at h
    cases hv : m.val_datasets with
    | none => rw [hv] at h; simp at h
    | some ds =>
      rw [hv] at h
      simp only [Option.map_some', Option.some.injEq] at h
      subst h
      simp only [List.mem_map] at hl
      obtain ⟨d, _, rfl⟩ := hl
      rfl
  · intro lds h l hl
    unfold test_dataloader at h
    cases hv : m.test_datasets with
    | none => rw [hv] at h; simp at h
    | some ds =>
      rw [hv] at h
      simp only [Option.map_some', Option.some.injEq] at h
      subst h
      simp only [List.mem_map] at hl
      obtain ⟨d, _, rfl⟩ := hl
      rfl

/-- Witness for C10 at a concrete module with populated handles. -/
theorem only_train_shuffles_witness :
    val_dataloader mVT = some [valLoaderW] ∧ valLoaderW.shuffle = false :=
  ⟨rfl,
   (only_train_shuffles mVT).2.1 [valLoaderW] rfl valLoaderW
     (List.Mem.head _)⟩

/-- C2: after any successful `setup` call, every dataset handle the call
populated carries the module's own scalers: on a fit-stage call the train
dataset and every val dataset, and on a test-stage call every test
dataset, store exactly the module's `lattice_scaler` and `prop_scalers`
(sharing by reference is modelled as equality of the stored values). -/
theorem setup_shares_scalers (env : Env Cfg CD Sc Err) (stage : Option String)
    (m : CrystDataModule Cfg CD Sc) (effs : List (Effect Cfg))
    (m' : CrystDataModule Cfg CD Sc)
    (h : setup env stage m = (effs, .ok m')) :
    (fitStage stage = true →
       (∃ td, m'.train_dataset = some td ∧
          td.lattice_scaler = some m'.lattice_scaler ∧
          td.prop_scalers = some m'.prop_scalers) ∧
       (∃ vds, m'.val_datasets = some vds ∧
          ∀ d ∈ vds, d.lattice_scaler = some m'.lattice_scaler ∧
            d.prop_scalers = some m'.prop_scalers)) ∧
    (testStage stage = true →
       ∃ tds, m'.test_datasets = some tds ∧
         ∀ d ∈ tds, d.lattice_scaler = some m'.lattice_scaler ∧
           d.prop_scalers = some m'.prop_scalers) := by
  rcases setup_ok_inv env stage m effs m' h with
    ⟨-, -, m1, e1, e2, hsf, hst, -⟩ | ⟨-, ht, hsf⟩ | ⟨hf, -, hst⟩ |
    ⟨hf, ht, -, rfl⟩
  · obtain ⟨td, vds, -, rfl, -, -⟩ := setupFit_ok env m e1 m1 hsf
    obtain ⟨tds, -, rfl⟩ := setupTest_ok env _ e2 m' hst
    constructor
    · intro _
      refine ⟨⟨_, rfl, rfl, rfl⟩, _, rfl, ?_⟩
      intro d hd
      simp only [List.mem_map] at hd
      obtain ⟨v, -, rfl⟩ := hd
      exact ⟨rfl, rfl⟩
    · intro _
      refine ⟨_, rfl, ?_⟩
      intro d hd
      simp only [List.mem_map] at hd
      obtain ⟨v, -, rfl⟩ := hd
      exact ⟨rfl, rfl⟩
  · obtain ⟨td, vds, -, rfl, -, -⟩ := setupFit_ok env m effs m' hsf
    constructor
    · intro _
      refine ⟨⟨_, rfl, rfl, rfl⟩, _, rfl, ?_⟩
      intro d hd
      simp only [List.mem_map] at hd
      obtain ⟨v, -, rfl⟩ := hd
      exact ⟨rfl, rfl⟩
    · intro hh
      rw [ht] at hh
      exact absurd hh (by simp)
  · obtain ⟨tds, -, rfl⟩ := setupTest_ok env m effs m' hst
    constructor
    · intro hh
      rw [hf] at hh
      exact absurd hh (by simp)
    · intro _
      refine ⟨_, rfl, ?_⟩
      intro d hd
      simp only [List.mem_map] at hd
      obtain ⟨v, -, rfl⟩ := hd
      exact ⟨rfl, rfl⟩
  · constructor
    · intro hh
      rw [hf] at hh
      exact absurd hh (by simp)
    · intro hh
      rw [ht] at hh
      exact absurd hh (by simp)

/-- Witness for C2: the scaler-sharing property evaluated after
`setup(None)` on the concretely constructed module. -/
theorem setup_shares_scalers_witness :
    setup envW none mW0 = (effsSetupW, .ok mW1) ∧
    ((fitStage none = true →
       (∃ td, mW1.train_dataset = some td ∧
          td.lattice_scaler = some mW1.lattice_scaler ∧
          td.prop_scalers = some mW1.prop_scalers) ∧
       (∃ vds, mW1.val_datasets = some vds ∧
          ∀ d ∈ vds, d.lattice_scaler = some mW1.lattice_scaler ∧
            d.prop_scalers = some mW1.prop_scalers)) ∧
     (testStage none = true →
       ∃ tds, mW1.test_datasets = some tds ∧
         ∀ d ∈ tds, d.lattice_scaler = some mW1.lattice_scaler ∧
           d.prop_scalers = some mW1.prop_scalers)) :=
  ⟨rfl, setup_shares_scalers envW none mW0 effsSetupW mW1 rfl⟩

/-- C3 counterexample: with `scaler_path = None` (the default),
constructing the module DOES perform a dataset instantiation from the
configuration tree — `get_scaler`, called from `__init__`, instantiates
the train dataset to compute the scalers.  Concretely, the construction
trace of `initModule envW dcfgW nwW bsW none` contains an instantiation
of the train config `7`. -/
theorem init_instantiates_counterexample :
    Effect.instantiateDataset (7 : Nat) ∈
      (initModule envW dcfgW nwW bsW none).1 := by decide

/-- C3 amended: construction populates no dataset handle (all three are
`None` after `__init__`), and performs no dataset instantiation when a
scaler path is supplied; when `scaler_path` is `None` it performs exactly
one dataset instantiation (the train dataset, consumed transiently to
compute the scalers, not stored in a handle). -/
theorem init_lazy_amended (env : Env Cfg CD Sc Err) (dcfg : DatasetsCfg Cfg)
    (nw bs : SplitValues Nat) (sp : Option String) (effs : List (Effect Cfg))
    (m0 : CrystDataModule Cfg CD Sc)
    (h : initModule env dcfg nw bs sp = (effs, .ok m0)) :
    m0.train_dataset = none ∧ m0.val_datasets = none ∧
    m0.test_datasets = none ∧
    (∀ p, sp = some p → effs.countP isInstantiateEffect = 0) ∧
    (sp = none → effs.countP isInstantiateEffect = 1) := by
  obtain ⟨-, -, -, -, -, -, -, h8, h9, h10, -, rfl⟩ :=
    initModule_ok_inv env dcfg nw bs sp effs m0 h
  refine ⟨h8, h9, h10, ?_, ?_⟩
  · rintro p rfl
    unfold get_scaler
    cases h1 : env.torch_load_scaler (pathJoin p "lattice_scaler.pt") with
    | error e =>
      simp [h1, List.countP_cons, List.countP_nil, isInstantiateEffect]
    | ok ls =>
      cases h2 : env.torch_load_scaler_list (pathJoin p "prop_scalers.pt") with
      | error e =>
        simp [h1, h2, List.countP_cons, List.countP_nil, isInstantiateEffect]
      | ok ps =>
        simp [h1, h2, List.countP_cons, List.countP_nil, isInstantiateEffect]
  · rintro rfl
    unfold get_scaler
    cases h1 : env.instantiate dcfg.train with
    | error e =>
      simp [h1, List.countP_cons, List.countP_nil, isInstantiateEffect]
    | ok td =>
      simp [h1, List.countP_cons, List.countP_nil, isInstantiateEffect]

/-- Witness for the amended C3, at a supplied scaler path and at `None`. -/
theorem init_lazy_amended_witness :
    initModule envW dcfgW nwW bsW (some "dir") = (effsInitDirW, .ok mWdir) ∧
    (mWdir.train_dataset = none ∧ mWdir.val_datasets = none ∧
     mWdir.test_datasets = none ∧
     (∀ p, some "dir" = some p →
        effsInitDirW.countP isInstantiateEffect = 0) ∧
     (some "dir" = (none : Option String) →
        effsInitDirW.countP isInstantiateEffect = 1)) ∧
    effsInitDirW.countP isInstantiateEffect = 0 :=
  ⟨rfl,
   init_lazy_amended envW dcfgW nwW bsW (some "dir") effsInitDirW mWdir rfl,
   (init_lazy_amended envW dcfgW nwW bsW (some "dir") effsInitDirW mWdir
     rfl).2.2.2.1 "dir" rfl⟩

/-- C4: `setup` populates the handles by stage.  On a fit-stage call it
keeps an already-set train dataset (merely re-attaching scalers),
instantiates the train dataset when the handle is `None`, and rebuilds
the val list from the configured val configs; on a test-stage call it
rebuilds the test list from the configured test configs; a `"fit"`-only
call leaves the test handle unchanged and a `"test"`-only call leaves the
train and val handles unchanged. -/
theorem setup_stage_spec (env : Env Cfg CD Sc Err) (stage : Option String)
    (m : CrystDataModule Cfg CD Sc) (effs : List (Effect Cfg))
    (m' : CrystDataModule Cfg CD Sc)
    (h : setup env stage m = (effs, .ok m')) :
    (fitStage stage = true →
       (∀ d, m.train_dataset = some d →
          m'.train_dataset =
            some (assignScalers m.lattice_scaler m.prop_scalers d)) ∧
       (m.train_dataset = none →
          ∃ td, env.instantiate m.datasets.train = .ok td ∧
            m'.train_dataset =
              some (assignScalers m.lattice_scaler m.prop_scalers td)) ∧
       (∃ vds, (instantiateList env m.datasets.val).2 = .ok vds ∧
          m'.val_datasets =
            some (vds.map (assignScalers m.lattice_scaler m.prop_scalers)))) ∧
    (testStage stage = true →
       ∃ tds, (instantiateList env m.datasets.test).2 = .ok tds ∧
         m'.test_datasets =
           some (tds.map (assignScalers m.lattice_scaler m.prop_scalers))) ∧
    (stage = some "fit" → m'.test_datasets = m.test_datasets) ∧
    (stage = some "test" →
       m'.train_dataset = m.train_dataset ∧
       m'.val_datasets = m.val_datasets) := by
  rcases setup_ok_inv env stage m effs m' h with
    ⟨hf, ht, m1, e1, e2, hsf, hst, -⟩ | ⟨hf, ht, hsf⟩ | ⟨hf, ht, hst⟩ |
    ⟨hf, ht, -, rfl⟩
  · obtain ⟨td, vds, hvds, rfl, htds, htdn⟩ := setupFit_ok env m e1 m1 hsf
    obtain ⟨tds, htest, rfl⟩ := setupTest_ok env _ e2 m' hst
    refine ⟨?_, ?_, ?_, ?_⟩
    · intro _
      refine ⟨?_, ?_, vds, hvds, rfl⟩
      · intro d hd
        rw [htds d hd]
      · intro hn
        exact ⟨td, htdn hn, rfl⟩
    · intro _
      exact ⟨tds, htest, rfl⟩
    · rintro rfl
      exact absurd ht (by decide)
    · rintro rfl
      exact absurd hf (by decide)
  · obtain ⟨td, vds, hvds, rfl, htds, htdn⟩ := setupFit_ok env m effs m' hsf
    refine ⟨?_, ?_, ?_, ?_⟩
    · intro _
      refine ⟨?_, ?_, vds, hvds, rfl⟩
      · intro d hd
        rw [htds d hd]
      · intro hn
        exact ⟨td, htdn hn, rfl⟩
    · intro hh
      rw [ht] at hh
      exact absurd hh (by simp)
    · rintro rfl
      rfl
    · rintro rfl
      exact absurd hf (by decide)
  · obtain ⟨tds, htest, rfl⟩ := setupTest_ok env m effs m' hst
    refine ⟨?_, ?_, ?_, ?_⟩
    · intro hh
      rw [hf] at hh
      exact absurd hh (by simp)
    · intro _
      exact ⟨tds, htest, rfl⟩
    · rintro rfl
      exact absurd ht (by decide)
    · rintro rfl
      exact ⟨rfl, rfl⟩
  · refine ⟨?_, ?_, ?_, ?_⟩
    · intro hh
      rw [hf] at hh
      exact absurd hh (by simp)
    · intro hh
      rw [ht] at hh
      exact absurd hh (by simp)
    · rintro rfl
      exact absurd hf (by decide)
    · rintro rfl
      exact absurd ht (by decide)

/-- Witness for C4: the stage dispatch evaluated after `setup(None)` on
the concretely constructed module. -/
theorem setup_stage_spec_witness :
    setup envW none mW0 = (effsSetupW, .ok mW1) ∧
    ((fitStage none = true →
       (∀ d, mW0.train_dataset = some d →
          mW1.train_dataset =
            some (assignScalers mW0.lattice_scaler mW0.prop_scalers d)) ∧
       (mW0.train_dataset = none →
          ∃ td, envW.instantiate mW0.datasets.train = .ok td ∧
            mW1.train_dataset =
              some (assignScalers mW0.lattice_scaler mW0.prop_scalers td)) ∧
       (∃ vds, (instantiateList envW mW0.datasets.val).2 = .ok vds ∧
          mW1.val_datasets =
            some (vds.map (assignScalers mW0.lattice_scaler
              mW0.prop_scalers)))) ∧
     (testStage none = true →
       ∃ tds, (instantiateList envW mW0.datasets.test).2 = .ok tds ∧
         mW1.test_datasets =
           some (tds.map (assignScalers mW0.lattice_scaler
             mW0.prop_scalers))) ∧
     (none = some "fit" → mW1.test_datasets = mW0.test_datasets) ∧
     (none = some "test" →
        mW1.train_dataset = mW0.train_dataset ∧
        mW1.val_datasets = mW0.val_datasets)) :=
  ⟨rfl, setup_stage_spec envW none mW0 effsSetupW mW1 rfl⟩

theorem initModule_effects (env : Env Cfg CD Sc Err) (dcfg : DatasetsCfg Cfg)
    (nw bs : SplitValues Nat) (sp : Option String) :
    (initModule env dcfg nw bs sp).1 = (get_scaler env dcfg sp).1 := by
  unfold initModule
  split
  next effs e hgs => simp [hgs]
  next effs ls ps hgs => simp [hgs]

theorem get_scaler_one_call (env : Env Cfg CD Sc Err) (dcfg : DatasetsCfg Cfg)
    (sp : Option String) :
    ((get_scaler env dcfg sp).1).countP isGetScalerCall = 1 := by
  unfold get_scaler
  cases sp with
  | none =>
    cases h1 : env.instantiate dcfg.train with
    | error e => simp [h1, List.countP_cons, List.countP_nil, isGetScalerCall]
    | ok td => simp [h1, List.countP_cons, List.countP_nil, isGetScalerCall]
  | some p =>
    cases h1 : env.torch_load_scaler (pathJoin p "lattice_scaler.pt") with
    | error e => simp [h1, List.countP_cons, List.countP_nil, isGetScalerCall]
    | ok ls =>
      cases h2 : env.torch_load_scaler_list (pathJoin p "prop_scalers.pt") with
      | error e =>
        simp [h1, h2, List.countP_cons, List.countP_nil, isGetScalerCall]
      | ok ps =>
        simp [h1, h2, List.countP_cons, List.countP_nil, isGetScalerCall]

/-- C5: the loader constructors pass exactly the configured parameters:
`train_dataloader` builds one loader over the train handle with the
configured train batch size and worker count, and `val_dataloader` /
`test_dataloader` build one loader per dataset of their list with the
configured val / test batch sizes and worker counts; all three pass
`worker_init_fn` as the worker-seed initializer. -/
theorem dataloader_params (env : Env Cfg CD Sc Err) (dcfg : DatasetsCfg Cfg)
    (nw bs : SplitValues Nat) (sp : Option String)
    (effs0 : List (Effect Cfg)) (m0 : CrystDataModule Cfg CD Sc)
    (stage : Option String) (effs1 : List (Effect Cfg))
    (m : CrystDataModule Cfg CD Sc)
    (h0 : initModule env dcfg nw bs sp = (effs0, .ok m0))
    (h1 : setup env stage m0 = (effs1, .ok m)) :
    train_dataloader m =
      { dataset := m.train_dataset
        shuffle := true
        batch_size := bs.train
        num_workers := nw.train
        worker_init := worker_init_fn } ∧
    (∀ vds, m.val_datasets = some vds →
       val_dataloader m = some (vds.map fun d =>
         { dataset := some d
           shuffle := false
           batch_size := bs.val
           num_workers := nw.val
           worker_init := worker_init_fn })) ∧
    (∀ tds, m.test_datasets = some tds →
       test_dataloader m = some (tds.map fun d =>
         { dataset := some d
           shuffle := false
           batch_size := bs.test
           num_workers := nw.test
           worker_init := worker_init_fn })) := by
  obtain ⟨-, hnw0, -, hbt0, hbv0, hbts0, -, -, -, -, -, -⟩ :=
    initModule_ok_inv env dcfg nw bs sp effs0 m0 h0
  obtain ⟨-, hnw, -, hbt, hbv, hbts, -, -, -⟩ :=
    setup_frame env stage m0 effs1 m h1
  have hnw' : m.num_workers = nw := hnw.trans hnw0
  have hbt' : m.train_batch_size = bs.train := hbt.trans hbt0
  have hbv' : m.val_batch_size = bs.val := hbv.trans hbv0
  have hbts' : m.test_batch_size = bs.test := hbts.trans hbts0
  refine ⟨?_, ?_, ?_⟩
  · simp [train_dataloader, hnw', hbt']
  · intro vds hv
    simp [val_dataloader, hv, hnw', hbv']
  · intro tds hts
    simp [test_dataloader, hts, hnw', hbts']

/-- Witness for C5: the three loader families evaluated on the module
constructed and set up concretely. -/
theorem dataloader_params_witness :
    initModule envW dcfgW nwW bsW none = (effsInitW, .ok mW0) ∧
    setup envW none mW0 = (effsSetupW, .ok mW1) ∧
    (train_dataloader mW1 =
      { dataset := mW1.train_dataset
        shuffle := true
        batch_size := bsW.train
        num_workers := nwW.train
        worker_init := worker_init_fn } ∧
    (∀ vds, mW1.val_datasets = some vds →
       val_dataloader mW1 = some (vds.map fun d =>
         { dataset := some d
           shuffle := false
           batch_size := bsW.val
           num_workers := nwW.val
           worker_init := worker_init_fn })) ∧
    (∀ tds, mW1.test_datasets = some tds →
       test_dataloader mW1 = some (tds.map fun d =>
         { dataset := some d
           shuffle := false
           batch_size := bsW.test
           num_workers := nwW.test
           worker_init := worker_init_fn }))) :=
  ⟨rfl, rfl,
   dataloader_params envW dcfgW nwW bsW none effsInitW mW0 none effsSetupW
     mW1 rfl rfl⟩

/-- C7: the scaler pair is loaded once, at construction: the construction
trace contains exactly one `get_scaler` invocation, and a successful
`setup` call (any stage) neither invokes `get_scaler` nor changes the
module's `lattice_scaler` or `prop_scalers` fields (the loader
constructors take the module unchanged and return only loaders). -/
theorem scalers_loaded_once (env : Env Cfg CD Sc Err) (dcfg : DatasetsCfg Cfg)
    (nw bs : SplitValues Nat) (sp : Option String) (stage : Option String)
    (m : CrystDataModule Cfg CD Sc) (effs : List (Effect Cfg))
    (m' : CrystDataModule Cfg CD Sc)
    (h : setup env stage m = (effs, .ok m')) :
    ((initModule env dcfg nw bs sp).1).countP isGetScalerCall = 1 ∧
    m'.lattice_scaler = m.lattice_scaler ∧
    m'.prop_scalers = m.prop_scalers ∧
    effs.countP isGetScalerCall = 0 := by
  obtain ⟨-, -, -, -, -, -, -, hls, hps⟩ :=
    setup_frame env stage m effs m' h
  refine ⟨?_, hls, hps, ?_⟩
  · rw [initModule_effects]
    exact get_scaler_one_call env dcfg sp
  · rcases setup_ok_inv env stage m effs m' h with
      ⟨-, -, m1, e1, e2, hsf, hst, rfl⟩ | ⟨-, -, hsf⟩ | ⟨-, -, hst⟩ |
      ⟨-, -, rfl, -⟩
    · have h1 : e1.countP isGetScalerCall = 0 := by
        have hh := setupFit_no_scaler_call env m
        rw [hsf] at hh
        simpa using hh
      have h2 : e2.countP isGetScalerCall = 0 := by
        have hh := setupTest_no_scaler_call env m1
        rw [hst] at hh
        simpa using hh
      simp [List.countP_append, h1, h2]
    · have h1 := setupFit_no_scaler_call env m
      rw [hsf] at h1
      exact h1
    · have h1 := setupTest_no_scaler_call env m
      rw [hst] at h1
      exact h1
    · simp

/-- Witness for C7 on the concrete construction and a `setup(None)`
call. -/
theorem scalers_loaded_once_witness :
    setup envW none mW0 = (effsSetupW, .ok mW1) ∧
    (((initModule envW dcfgW nwW bsW none).1).countP isGetScalerCall = 1 ∧
     mW1.lattice_scaler = mW0.lattice_scaler ∧
     mW1.prop_scalers = mW0.prop_scalers ∧
     effsSetupW.countP isGetScalerCall = 0) :=
  ⟨rfl,
   scalers_loaded_once envW dcfgW nwW bsW none none mW0 effsSetupW mW1 rfl⟩

/-- C8: no failure is caught or replaced: an exception from an underlying
call comes out of `get_scaler`, of `__init__` and of `setup` as the very
same error value, and every error `setup` returns is the error of some
underlying instantiation (the loader constructors make no fallible call);
on an error no module state is produced, so no field gets a fallback
value. -/
theorem errors_propagate_unmodified (env : Env Cfg CD Sc Err)
    (dcfg : DatasetsCfg Cfg) :
    (∀ e, env.instantiate dcfg.train = .error e →
       (get_scaler env dcfg none).2 = .error e) ∧
    (∀ sp e, env.torch_load_scaler (pathJoin sp "lattice_scaler.pt") =
         .error e →
       (get_scaler env dcfg (some sp)).2 = .error e) ∧
    (∀ sp ls e,
       env.torch_load_scaler (pathJoin sp "lattice_scaler.pt") = .ok ls →
       env.torch_load_scaler_list (pathJoin sp "prop_scalers.pt") =
         .error e →
       (get_scaler env dcfg (some sp)).2 = .error e) ∧
    (∀ nw bs sp effs e, initModule env dcfg nw bs sp = (effs, .error e) →
       (get_scaler env dcfg sp).2 = .error e) ∧
    (∀ stage m effs e,
       setup env stage m = (effs,
         (.error e : Except Err (CrystDataModule Cfg CD Sc))) →
       ∃ c, env.instantiate c = .error e) := by
  refine ⟨?_, ?_, ?_, ?_, ?_⟩
  · intro e h
    simp [get_scaler, h]
  · intro sp e h
    simp [get_scaler, h]
  · intro sp ls e h1 h2
    simp [get_scaler, h1, h2]
  · intro nw bs sp effs e h
    unfold initModule at h
    split at h
    next effs' e' hgs =>
      simp only [Prod.mk.injEq, Except.error.injEq] at h
      rw [hgs, h.2]
    next => simp at h
  · intro stage m effs e h
    unfold setup at h
    split at h
    next =>
      split at h
      next e1 e' hsf =>
        simp only [Prod.mk.injEq, Except.error.injEq] at h
        exact setupFit_error env m e1 e (by rw [hsf, h.2])
      next e1 m1 hsf =>
        split at h
        next =>
          split at h
          next e2 r hst =>
            cases r with
            | error e' =>
              simp only [Prod.mk.injEq, Except.error.injEq] at h
              exact setupTest_error env m1 e2 e (by rw [hst, h.2])
            | ok m2 => simp at h
        next => simp at h
    next =>
      split at h
      next => exact setupTest_error env m effs e h
      next => simp at h

/-- Witness for C8 at the all-failing environment: the instantiation
error `42` comes out of `get_scaler`, and a failing `setup` surfaces an
underlying instantiation error. -/
theorem errors_propagate_unmodified_witness :
    envE.instantiate dcfgW.train = .error 42 ∧
    setup envE none mW0 = ([.instantiateDataset 7], .error 42) ∧
    (get_scaler envE dcfgW none).2 = .error 42 ∧
    (∃ c, envE.instantiate c = .error 42) :=
  ⟨rfl, rfl,
   (errors_propagate_unmodified envE dcfgW).1 42 rfl,
   (errors_propagate_unmodified envE dcfgW).2.2.2.2 none mW0
     [.instantiateDataset 7] 42 rfl⟩

end CdvaeDM
